import Mathlib

/-!
Verification of the funderoftheworld backend (src/backend/index.js) against its
design specification.

The backend is a set of Express route handlers over an Oracle store.  This file
is a shallow embedding of the persistent data model and of the route handlers
the claims talk about.  Conventions used throughout, chosen to mirror the
JavaScript and SQL as directly as possible:

* The relational store is a record of lists of rows (one list per table), and
  each handler is a pure function from the store and the request parameters to
  a response paired with the successor store.  A handler that performs no
  write returns the store unchanged.
* Monetary values (goal, raised, budget, spent, donation amount) are modelled
  as integers.  The handlers use these values only with addition, subtraction
  and order comparisons, so any ordered ring is a faithful carrier; integers
  keep every concrete statement decidable.  The one division in the code
  (spending percent, GET /api/projects/progress) is modelled over the
  rationals.
* JavaScript falsiness of request fields is modelled as the empty string for
  string fields and as 0 for numeric fields tested with a bare negation, which
  is exactly the set of values those tests reject; a field that the code
  tests against null (or NaN) explicitly is an Option.
* Date.now() and Oracle sequence values enter as explicit parameters (a clock
  and the stored sequence counter), since the handlers treat them as abstract
  fresh values.
* Express dispatches a request to the FIRST registered handler whose route
  matches; every handler in this source terminates the response and never
  calls next().  The source registers POST /api/donations,
  PATCH /api/projects/:projId/expense and GET /api/donations/:donId twice;
  in each pair only the first registration is reachable.  Both members of
  each pair are embedded (suffix 1 for the first, reachable one, suffix 2
  for the second, dead one).
-/

/-- Uppercasing of a request string, modelling String.prototype.toUpperCase
on the ASCII identifiers this backend compares against. -/
def upper (s : String) : String := ⟨s.data.map Char.toUpper⟩

/-- Test for the signup Aadhar rule, the regular expression of twelve digits
anchored at both ends (src/backend/index.js line 125). -/
def is12Digits (s : String) : Bool :=
  s.data.length == 12 && s.data.all (fun c => c.isDigit)

/-- Character code 64, the at sign. -/
def atChar : Char := Char.ofNat 64

/-- Character code 46, the full stop. -/
def dotChar : Char := Char.ofNat 46

/-- Test for the signup email rule (src/backend/index.js line 130): the
regular expression of nonspace characters, an at sign, nonspace characters,
a full stop and nonspace characters, anchored at both ends.  A string matches
exactly when it contains no whitespace and can be split as A at-sign B
full-stop C with A, B, C nonempty, which the double search below decides. -/
def emailOk (e : String) : Bool :=
  let cs := e.data
  cs.all (fun c => !c.isWhitespace) &&
  (List.range cs.length).any (fun i =>
    (List.range cs.length).any (fun j =>
      decide (1 ≤ i) && decide (i + 2 ≤ j) && decide (j + 2 ≤ cs.length) &&
      cs.get? i == some atChar && cs.get? j == some dotChar))

/-- Stand-in for bcrypt.hash with cost 10 (src/backend/index.js line 140).
The hash algorithm is out of scope for the specification and no claim
inspects the stored value, so an uninterpreted injective tag suffices. -/
def bcryptHash (password : String) : String := "bcrypt10$" ++ password

/-- Id generation (src/backend/index.js lines 53 to 55): the given tag, an
underscore and the current value of Date.now(), passed in as a clock. -/
def generateUniqueId (pfx : String) (now : Nat) : String :=
  pfx ++ "_" ++ toString now

/-- Row of the NEW_CREDENTIALS table: USER_ID, AADHAR_NO, PASSWORD (the
bcrypt hash), EMAIL, USER_TYPE. -/
structure Credential where
  userId : String
  aadharNo : String
  password : String
  email : String
  userType : String
deriving DecidableEq

/-- Row of the STAFF table: STAFF_ID, USER_ID, FNAME, LNAME, DOJ.  The name
fields default to null in the signup handler, hence Options; DOJ is the
insertion clock. -/
structure StaffRow where
  staffId : String
  userId : String
  fname : Option String
  lname : Option String
  doj : Nat
deriving DecidableEq

/-- Row of the DONOR table: DONOR_ID, USER_ID, FNAME, LNAME. -/
structure DonorRow where
  donorId : String
  userId : String
  fname : Option String
  lname : Option String
deriving DecidableEq

/-- Row of the CAMPAIGN table: CAMP_ID, C_NAME, STATUS, SDATE, EDATE,
GOAL_AMOUNT, MANAGER_STAFF_ID, and the AMOUNT_COLLECTED column that only the
second (unreachable) donation handler writes.  Dates are kept as the request
strings; the handlers never compare them.  STATUS is kept as a raw string
because the two expense handlers disagree about its spelling. -/
structure Campaign where
  campId : String
  cName : String
  status : String
  sDate : String
  eDate : String
  goalAmount : Int
  managerStaffId : String
  amountCollected : Int
deriving DecidableEq

/-- Row of the PROJECT table: PROJ_ID, PNAME, BUDGET, SPENT, STATUS, SDATE,
OVERSEER_STAFF_ID, CAMP_ID (nullable). -/
structure Project where
  projId : String
  pname : String
  budget : Int
  spent : Int
  status : String
  sDate : String
  overseerStaffId : String
  campId : Option String
deriving DecidableEq

/-- Row of the DONATION table.  The two donation handlers address different
column sets of this table: the first inserts D_ID, DONOR_ID, CAMP_ID, AMOUNT,
PAYMENT_METHOD, DONATION_DATE; the second inserts DON_ID (a sequence value),
DONOR_ID, CAMP_ID, AMOUNT, DON_DATE.  Every column appears here, optional
where only one schema sets it. -/
structure Donation where
  dId : Option String
  donSeqId : Option Int
  donorId : String
  campId : String
  amount : Int
  paymentMethod : Option String
  donationDate : Option Nat
  donDate : Option String
deriving DecidableEq

/-- The persistent store: one list per table, plus the DONATION_SEQ sequence
counter consumed by the second donation handler. -/
structure Store where
  credentials : List Credential
  staff : List StaffRow
  donors : List DonorRow
  campaigns : List Campaign
  projects : List Project
  donations : List Donation
  donationSeq : Int
deriving DecidableEq

/-- Raised total of a campaign as computed on read by the summary endpoints
(src/backend/index.js lines 345 to 355 and 386 to 396): NVL(SUM(D.AMOUNT), 0)
over the donations joined on CAMP_ID. -/
def sumRaised (ds : List Donation) (cid : String) : Int :=
  ((ds.filter (fun d => d.campId == cid)).map (fun d => d.amount)).sum

/-- Responses of POST /api/auth/signup, one constructor per res.status call
(src/backend/index.js lines 101 to 206). -/
inductive SignupResp where
  | missingFields
  | invalidUserType
  | invalidAadhar
  | invalidEmail
  | shortPassword
  | conflict
  | created (primaryId : String) (userType : String)
deriving DecidableEq

/-- HTTP status of each signup response as set by the handler: the five
validation rejections are 400, the ORA-00001 unique-constraint catch is 409,
success is 201. -/
def signupStatus : SignupResp → Nat
  | SignupResp.missingFields => 400
  | SignupResp.invalidUserType => 400
  | SignupResp.invalidAadhar => 400
  | SignupResp.invalidEmail => 400
  | SignupResp.shortPassword => 400
  | SignupResp.conflict => 409
  | SignupResp.created _ _ => 201

/-- Request body of POST /api/auth/signup.  The required fields are strings
with the empty string standing for an absent or falsy value; fname and lname
default to null. -/
structure SignupReq where
  aadharNo : String
  password : String
  email : String
  userType : String
  fname : Option String
  lname : Option String
deriving DecidableEq

/-- POST /api/auth/signup (src/backend/index.js lines 101 to 206).  Presence
check, user-type check, Aadhar regular expression, email regular expression,
password length, in the order of the source; then the NEW_CREDENTIALS insert,
whose unique constraints on EMAIL and AADHAR_NO (and the USER_ID key) surface
as ORA-00001 and answer 409; then the role-profile insert.  The source issues
the two inserts as separate autocommitted statements; no claim depends on a
failure between them, so the success path is modelled as one step. -/
def signup (s : Store) (r : SignupReq) (clock : Nat) : SignupResp × Store :=
  if r.email == "" || r.password == "" || r.aadharNo == "" || r.userType == "" then
    (SignupResp.missingFields, s)
  else if !(upper r.userType == "STAFF") && !(upper r.userType == "DONOR") then
    (SignupResp.invalidUserType, s)
  else if !(is12Digits r.aadharNo) then
    (SignupResp.invalidAadhar, s)
  else if !(emailOk r.email) then
    (SignupResp.invalidEmail, s)
  else if r.password.length < 6 then
    (SignupResp.shortPassword, s)
  else
    let upperUserType := upper r.userType
    let userId := generateUniqueId upperUserType clock
    let primaryId := generateUniqueId (upperUserType.take 1) clock
    if s.credentials.any (fun u =>
        u.email == r.email || u.aadharNo == r.aadharNo || u.userId == userId) then
      (SignupResp.conflict, s)
    else
      let newCred : Credential :=
        { userId := userId, aadharNo := r.aadharNo, password := bcryptHash r.password,
          email := r.email, userType := upperUserType }
      let s1 := { s with credentials := s.credentials ++ [newCred] }
      if upperUserType == "STAFF" then
        let newStaff : StaffRow :=
          { staffId := primaryId, userId := userId, fname := r.fname,
            lname := r.lname, doj := clock }
        (SignupResp.created primaryId upperUserType,
         { s1 with staff := s1.staff ++ [newStaff] })
      else
        let newDonor : DonorRow :=
          { donorId := primaryId, userId := userId, fname := r.fname,
            lname := r.lname }
        (SignupResp.created primaryId upperUserType,
         { s1 with donors := s1.donors ++ [newDonor] })

/-- Accuracy of a signup rejection message with respect to the request: each
validation response of the handler carries a message naming the field or
fields it rejects, and this predicate states that a named field really does
violate its rule in the given request. -/
def namesOffending : SignupResp → SignupReq → Bool
  | SignupResp.missingFields, r =>
      r.email == "" || r.password == "" || r.aadharNo == "" || r.userType == ""
  | SignupResp.invalidUserType, r =>
      !(upper r.userType == "STAFF") && !(upper r.userType == "DONOR")
  | SignupResp.invalidAadhar, r => !(is12Digits r.aadharNo)
  | SignupResp.invalidEmail, r => !(emailOk r.email)
  | SignupResp.shortPassword, r => decide (r.password.length < 6)
  | _, _ => false

/-- Responses of POST /api/campaigns (src/backend/index.js lines 430 to 477). -/
inductive CampaignResp where
  | missingFields
  | conflict
  | created (campId : String)
deriving DecidableEq

/-- HTTP status of each campaign-creation response: 400, 409, 201. -/
def campaignStatus : CampaignResp → Nat
  | CampaignResp.missingFields => 400
  | CampaignResp.conflict => 409
  | CampaignResp.created _ => 201

/-- Campaign row inserted by POST /api/campaigns: status ACTIVE, the request
fields, and no AMOUNT_COLLECTED value (the insert does not set that column;
it is modelled as 0, and nothing reachable ever reads it). -/
def newCampaign (cName : String) (goalAmount : Int) (sDate eDate managerStaffId : String)
    (clock : Nat) : Campaign :=
  { campId := generateUniqueId "CAMP" clock, cName := cName, status := "ACTIVE",
    sDate := sDate, eDate := eDate, goalAmount := goalAmount,
    managerStaffId := managerStaffId, amountCollected := 0 }

/-- POST /api/campaigns (src/backend/index.js lines 430 to 477).  The only
validation is JavaScript truthiness of the four request fields, so a goal of
0 (falsy) is reported as missing while a negative goal passes, and the dates
are never compared.  The insert answers 409 when the unique constraint on the
campaign name (or the CAMP_ID key) is violated. -/
def createCampaign (s : Store) (cName : String) (goalAmount : Int)
    (sDate eDate managerStaffId : String) (clock : Nat) : CampaignResp × Store :=
  if cName = "" ∨ goalAmount = 0 ∨ sDate = "" ∨ eDate = "" then
    (CampaignResp.missingFields, s)
  else
    let campId := generateUniqueId "CAMP" clock
    if s.campaigns.any (fun c => c.cName == cName || c.campId == campId) then
      (CampaignResp.conflict, s)
    else
      (CampaignResp.created campId,
       { s with campaigns := s.campaigns ++
          [newCampaign cName goalAmount sDate eDate managerStaffId clock] })

/-- Responses of POST /api/projects (src/backend/index.js lines 916 to 965):
400 on missing fields, 400 on ORA-02291 (CAMP_ID foreign key violation), 409
on ORA-00001, 201 on success. -/
inductive ProjectResp where
  | missingFields
  | invalidCampaign
  | conflict
  | created (projId : String)
deriving DecidableEq

/-- POST /api/projects (src/backend/index.js lines 916 to 965).  The
budgetTruthy flag models JavaScript truthiness of the raw budget field of the
JSON body before Number conversion: the handler tests the raw value, so the
string form of zero is truthy and a project with BUDGET 0 (or a negative
budget) is insertable.  SPENT starts at 0 and STATUS at ONGOING; a given
CAMP_ID must exist (foreign key). -/
def createProject (s : Store) (pName : String) (budget : Int) (budgetTruthy : Bool)
    (sDate : String) (campId : Option String) (staffId : String) (clock : Nat) :
    ProjectResp × Store :=
  if pName = "" ∨ budgetTruthy = false ∨ sDate = "" then
    (ProjectResp.missingFields, s)
  else
    let projId := generateUniqueId "PROJ" clock
    if (match campId with
        | some cid => s.campaigns.all (fun c => !(c.campId == cid))
        | none => false) then
      (ProjectResp.invalidCampaign, s)
    else if s.projects.any (fun p => p.pname == pName || p.projId == projId) then
      (ProjectResp.conflict, s)
    else
      let newProj : Project :=
        { projId := projId, pname := pName, budget := budget, spent := 0,
          status := "ONGOING", sDate := sDate, overseerStaffId := staffId,
          campId := campId }
      (ProjectResp.created projId, { s with projects := s.projects ++ [newProj] })

/-- Responses of PATCH /api/projects/:projId/expense.  budgetExceeded carries
the three numbers interpolated into the 400 message of the handler: the
budget, the remaining headroom and the attempted amount. -/
inductive ExpenseResp where
  | invalidAmount
  | notFound
  | budgetExceeded (budget remaining attempted : Int)
  | ok (newSpentTotal : Int)
deriving DecidableEq

/-- HTTP status of each expense response: 400, 404, 400, 200. -/
def expenseStatus : ExpenseResp → Nat
  | ExpenseResp.invalidAmount => 400
  | ExpenseResp.notFound => 404
  | ExpenseResp.budgetExceeded _ _ _ => 400
  | ExpenseResp.ok _ => 200

/-- PATCH /api/projects/:projId/expense, first registration
(src/backend/index.js lines 806 to 876); this is the handler Express
dispatches.  The amount is an Option, none standing for the null and NaN
values the handler rejects explicitly.  Select BUDGET and SPENT by PROJ_ID,
reject when SPENT plus the amount would exceed BUDGET (reporting budget,
remaining headroom and attempted amount), otherwise update SPENT to the new
total.  The update statement of this registration touches no other column;
in particular STATUS is left as it was. -/
def patchExpense1 (s : Store) (projId : String) (expenseAmount : Option Int) :
    ExpenseResp × Store :=
  match expenseAmount with
  | none => (ExpenseResp.invalidAmount, s)
  | some amountToAdd =>
    if amountToAdd ≤ 0 then (ExpenseResp.invalidAmount, s)
    else
      match s.projects.find? (fun p => p.projId == projId) with
      | none => (ExpenseResp.notFound, s)
      | some project =>
        if project.budget < project.spent + amountToAdd then
          (ExpenseResp.budgetExceeded project.budget (project.budget - project.spent)
            amountToAdd, s)
        else
          (ExpenseResp.ok (project.spent + amountToAdd),
           { s with projects := s.projects.map (fun q =>
              if q.projId == projId then { q with spent := project.spent + amountToAdd }
              else q) })

/-- PATCH /api/projects/:projId/expense, second registration
(src/backend/index.js lines 1022 to 1087), unreachable behind patchExpense1.
Differences from the first registration: the 400 message clamps the reported
remaining headroom at 0, and the update statement also sets STATUS with CASE
WHEN :newSpent >= BUDGET THEN the mixed-case string Completed ELSE STATUS
END. -/
def patchExpense2 (s : Store) (projId : String) (expenseAmount : Option Int) :
    ExpenseResp × Store :=
  match expenseAmount with
  | none => (ExpenseResp.invalidAmount, s)
  | some amountToAdd =>
    if amountToAdd ≤ 0 then (ExpenseResp.invalidAmount, s)
    else
      match s.projects.find? (fun p => p.projId == projId) with
      | none => (ExpenseResp.notFound, s)
      | some project =>
        if project.budget < project.spent + amountToAdd then
          (ExpenseResp.budgetExceeded project.budget
            (max 0 (project.budget - project.spent)) amountToAdd, s)
        else
          (ExpenseResp.ok (project.spent + amountToAdd),
           { s with projects := s.projects.map (fun q =>
              if q.projId == projId then
                { q with spent := project.spent + amountToAdd,
                         status := if q.budget ≤ project.spent + amountToAdd then
                                     "Completed" else q.status }
              else q) })

/-- Responses of POST /api/donations, first registration.  The handler folds
the absent-campaign case and the inactive-campaign case into one 404 response
whose message is Campaign not found or not currently active. -/
inductive DonationResp where
  | accessDenied
  | invalidFields
  | campaignUnavailable
  | created (donId : String)
deriving DecidableEq

/-- HTTP status of each response of the first donation handler: 403, 400,
404, 201. -/
def donationStatus : DonationResp → Nat
  | DonationResp.accessDenied => 403
  | DonationResp.invalidFields => 400
  | DonationResp.campaignUnavailable => 404
  | DonationResp.created _ => 201

/-- Donation row inserted by the first donation handler: D_ID, DONOR_ID,
CAMP_ID, AMOUNT, PAYMENT_METHOD fixed to ONLINE, DONATION_DATE from the
clock; the columns of the second schema stay null. -/
def newDonation1 (donorId campId : String) (amount : Int) (clock : Nat) : Donation :=
  { dId := some (generateUniqueId "D" clock), donSeqId := none, donorId := donorId,
    campId := campId, amount := amount, paymentMethod := some "ONLINE",
    donationDate := some clock, donDate := none }

/-- POST /api/donations, first registration (src/backend/index.js lines 575
to 640); this is the handler Express dispatches.  Donor check, field check,
one SELECT of the campaign status answering 404 unless the row exists with
status ACTIVE, then a single autocommitted INSERT of the donation row.  No
stored raised total is written anywhere on this path; the summary endpoints
compute the raised total on read (sumRaised). -/
def postDonations1 (s : Store) (userType primaryId campId : String) (amount : Int)
    (clock : Nat) : DonationResp × Store :=
  if userType ≠ "DONOR" then (DonationResp.accessDenied, s)
  else if campId = "" ∨ amount ≤ 0 then (DonationResp.invalidFields, s)
  else
    match s.campaigns.find? (fun c => c.campId == campId) with
    | none => (DonationResp.campaignUnavailable, s)
    | some c =>
      if c.status ≠ "ACTIVE" then (DonationResp.campaignUnavailable, s)
      else
        (DonationResp.created (generateUniqueId "D" clock),
         { s with donations := s.donations ++ [newDonation1 primaryId campId amount clock] })

/-- Responses of POST /api/donations, second registration: 403 from the donor
middleware, 400 on invalid fields, 500 when the insert violates the CAMP_ID
foreign key (the handler has no campaign check of its own and catches every
database error as 500), 201 on success. -/
inductive DonationResp2 where
  | accessDenied
  | invalidFields
  | fkViolation
  | created (donId : Int)
deriving DecidableEq

/-- HTTP status of each response of the second donation handler: 403, 400,
500, 201. -/
def donation2Status : DonationResp2 → Nat
  | DonationResp2.accessDenied => 403
  | DonationResp2.invalidFields => 400
  | DonationResp2.fkViolation => 500
  | DonationResp2.created _ => 201

/-- POST /api/donations, second registration (src/backend/index.js lines 1170
to 1220), unreachable behind postDonations1.  It draws DONATION_SEQ.NEXTVAL,
inserts a donation row under the DON_ID and DON_DATE columns with no campaign
status check, and then, in a separate autocommitted statement, adds the
amount to the AMOUNT_COLLECTED column of the campaign. -/
def postDonations2 (s : Store) (userType primaryId campId : String) (amount : Int)
    (donationDate : String) : DonationResp2 × Store :=
  if userType ≠ "DONOR" then (DonationResp2.accessDenied, s)
  else if campId = "" ∨ amount ≤ 0 then (DonationResp2.invalidFields, s)
  else
    let newDonId := s.donationSeq
    if s.campaigns.all (fun c => !(c.campId == campId)) then
      (DonationResp2.fkViolation, { s with donationSeq := s.donationSeq + 1 })
    else
      let row : Donation :=
        { dId := none, donSeqId := some newDonId, donorId := primaryId,
          campId := campId, amount := amount, paymentMethod := none,
          donationDate := none, donDate := some donationDate }
      (DonationResp2.created newDonId,
       { s with
          donationSeq := s.donationSeq + 1,
          donations := s.donations ++ [row],
          campaigns := s.campaigns.map (fun c =>
            if c.campId == campId then
              { c with amountCollected := c.amountCollected + amount }
            else c) })

/-- Denormalized view of one donation returned by the first receipt handler:
D_ID, DONOR_ID, AMOUNT, DONATION_DATE, PAYMENT_METHOD, the campaign name, the
donor name (FNAME, a space and LNAME, Oracle concatenation treating null as
empty) and the email from NEW_CREDENTIALS. -/
structure ReceiptView where
  dId : Option String
  donorId : String
  amount : Int
  donationDate : Option Nat
  paymentMethod : Option String
  campaignName : String
  donorName : String
  donorEmail : String
deriving DecidableEq

/-- Responses of GET /api/donations/:donId, first registration: 404, 403,
200 with the view. -/
inductive ReceiptResp where
  | notFound
  | accessDenied
  | ok (v : ReceiptView)
deriving DecidableEq

/-- HTTP status of each receipt response: 404, 403, 200. -/
def receiptStatus : ReceiptResp → Nat
  | ReceiptResp.notFound => 404
  | ReceiptResp.accessDenied => 403
  | ReceiptResp.ok _ => 200

/-- The join of the first receipt handler (src/backend/index.js lines 710 to
725): DONATION filtered on D_ID, inner-joined to CAMPAIGN on CAMP_ID, to
DONOR on DONOR_ID and to NEW_CREDENTIALS on USER_ID.  An inner join, so the
result is empty whenever any referenced row is missing. -/
def receiptJoin (s : Store) (donId : String) :
    Option (Donation × Campaign × DonorRow × Credential) :=
  match s.donations.find? (fun d => d.dId == some donId) with
  | none => none
  | some d =>
    match s.campaigns.find? (fun c => c.campId == d.campId) with
    | none => none
    | some c =>
      match s.donors.find? (fun r => r.donorId == d.donorId) with
      | none => none
      | some r =>
        match s.credentials.find? (fun u => u.userId == r.userId) with
        | none => none
        | some u => some (d, c, r, u)

/-- GET /api/donations/:donId, first registration (src/backend/index.js lines
700 to 756); this is the handler Express dispatches.  Run the read-only join;
404 when it is empty; 403 when the caller is a DONOR whose primary id differs
from the DONOR_ID of the row; otherwise 200 with the view.  The handler
performs no write, so every branch returns the store unchanged. -/
def getReceipt1 (s : Store) (donId userType primaryId : String) : ReceiptResp × Store :=
  match receiptJoin s donId with
  | none => (ReceiptResp.notFound, s)
  | some (d, c, r, u) =>
    if userType = "DONOR" ∧ d.donorId ≠ primaryId then (ReceiptResp.accessDenied, s)
    else
      (ReceiptResp.ok
        { dId := d.dId, donorId := d.donorId, amount := d.amount,
          donationDate := d.donationDate, paymentMethod := d.paymentMethod,
          campaignName := c.cName,
          donorName := r.fname.getD "" ++ " " ++ r.lname.getD "",
          donorEmail := u.email }, s)

/-- Response of GET /api/donations/:donId, second registration: its only
reachable outcome. -/
inductive ReceiptResp2 where
  | serverError
deriving DecidableEq

/-- HTTP status of the second receipt handler response: 500. -/
def receipt2Status : ReceiptResp2 → Nat
  | ReceiptResp2.serverError => 500

/-- GET /api/donations/:donId, second registration (src/backend/index.js
lines 1223 to 1271), unreachable behind getReceipt1.  The SQL string of this
handler embeds a JavaScript line comment (two slashes before the words Fetch
Donor details, line 1240), which is not Oracle SQL comment text, so every
execution of the statement raises a parse error that the catch block turns
into a 500 response; no branch of this handler can answer anything else.
Independently of that, its WHERE clause filters d.DONOR_ID = :donId, keying
the lookup by donor id where the first handler keys it by donation id, and
its join omits NEW_CREDENTIALS. -/
def getReceipt2 (s : Store) (_donId _userType _primaryId : String) : ReceiptResp2 × Store :=
  (ReceiptResp2.serverError, s)

/-- Rounding to two decimal places over the rationals, the arithmetic both
the SQL ROUND call and the JavaScript toFixed fallback denote on the values
in range here. -/
def round2 (x : ℚ) : ℚ := ((round (x * 100) : ℤ) : ℚ) / 100

/-- Row of the GET /api/projects/progress response. -/
structure ProgressRow where
  projId : String
  pname : String
  budget : Int
  spent : Int
  status : String
  sDate : String
  campId : Option String
  spendingPercent : ℚ
deriving DecidableEq

/-- Responses of GET /api/projects/progress: 200 with the rows, or the 500
the catch block produces when the query itself raises. -/
inductive ProgressResp where
  | rows (rs : List ProgressRow)
  | dbError
deriving DecidableEq

/-- HTTP status of each progress response: 200, 500. -/
def progressStatus : ProgressResp → Nat
  | ProgressResp.rows _ => 200
  | ProgressResp.dbError => 500

/-- GET /api/projects/progress (src/backend/index.js lines 1093 to 1138).
The SQL selects ROUND((SPENT / BUDGET) * 100, 2) for every PROJECT row, and
Oracle raises ORA-01476 (divisor is equal to zero) as soon as any row has
BUDGET 0, which the catch block answers as 500: hence the dbError branch.
Only when no budget is zero do rows reach the JavaScript map, whose guard
replaces the percentage of a non-positive budget by 0.  The ORDER BY of the
query only permutes rows and is not modelled. -/
def progressHandler (s : Store) : ProgressResp × Store :=
  if s.projects.any (fun p => p.budget == 0) then (ProgressResp.dbError, s)
  else
    (ProgressResp.rows (s.projects.map (fun p =>
      { projId := p.projId, pname := p.pname, budget := p.budget, spent := p.spent,
        status := p.status, sDate := p.sDate, campId := p.campId,
        spendingPercent :=
          if (0 : Int) < p.budget then round2 ((p.spent : ℚ) / (p.budget : ℚ) * 100)
          else 0 })), s)

/-- One PATCH expense call through the dispatched handler, keeping only the
store (the response is recomputable from the pre-state). -/
def applyExpense (s : Store) (c : String × Option Int) : Store :=
  (patchExpense1 s c.1 c.2).2

/-- A sequence of PATCH expense calls through the dispatched handler, applied
left to right. -/
def runExpenses (s : Store) (calls : List (String × Option Int)) : Store :=
  calls.foldl applyExpense s

/-- The budget invariant of the project table: no row has SPENT above
BUDGET. -/
def BudgetInv (s : Store) : Prop :=
  ∀ p ∈ s.projects, p.spent ≤ p.budget

/-- Pointwise monotonicity of SPENT between two stores: every project of the
earlier store spends no more than the project of the same id in the later
store. -/
def SpentMono (s t : Store) : Prop :=
  ∀ p ∈ s.projects, ∀ q ∈ t.projects, q.projId = p.projId → p.spent ≤ q.spent


/-- A store with every table empty and the donation sequence at its initial
value. -/
def emptyStore : Store :=
  { credentials := [], staff := [], donors := [], campaigns := [], projects := [],
    donations := [], donationSeq := 1 }

/-- Sample project with room in its budget. -/
def projA : Project :=
  { projId := "PROJ_1", pname := "Borewell", budget := 100, spent := 0,
    status := "ONGOING", sDate := "2025-01-01", overseerStaffId := "S_1", campId := none }

/-- Sample project at the headroom of the worked example of the
specification: budget 5000, spent 4800. -/
def projB : Project :=
  { projId := "PROJ_2", pname := "School Roof", budget := 5000, spent := 4800,
    status := "ONGOING", sDate := "2025-02-01", overseerStaffId := "S_1", campId := none }

/-- A store holding the two sample projects. -/
def storeProjects : Store := { emptyStore with projects := [projA, projB] }

/-- Sample campaign whose status is COMPLETED, hence not donatable. -/
def campCompleted : Campaign :=
  { campId := "CAMP_77", cName := "Closed Drive", status := "COMPLETED",
    sDate := "2025-01-01", eDate := "2025-03-01", goalAmount := 10000,
    managerStaffId := "S_1", amountCollected := 0 }

/-- A store holding only the COMPLETED sample campaign. -/
def storeInactive : Store := { emptyStore with campaigns := [campCompleted] }

/-- Sample ACTIVE campaign. -/
def campActive : Campaign :=
  { campId := "CAMP_1", cName := "Hope Drive", status := "ACTIVE",
    sDate := "2025-01-01", eDate := "2025-06-01", goalAmount := 10000,
    managerStaffId := "S_1", amountCollected := 0 }

/-- Sample donation recorded by the first donation handler, owned by donor
DNR_1. -/
def donX : Donation :=
  { dId := some "D_9", donSeqId := none, donorId := "DNR_1", campId := "CAMP_1",
    amount := 25, paymentMethod := some "ONLINE", donationDate := some 4,
    donDate := none }

/-- Sample donor profile row for DNR_1. -/
def donorRowX : DonorRow :=
  { donorId := "DNR_1", userId := "DONOR_2", fname := some "Ada",
    lname := some "Lovelace" }

/-- Sample credential row for the donor DNR_1. -/
def credX : Credential :=
  { userId := "DONOR_2", aadharNo := "123456789012",
    password := bcryptHash "secret1", email := "ada@ngo.org", userType := "DONOR" }

/-- A store holding one donation with its campaign, donor profile and
credential, so the receipt join is total on it. -/
def receiptStore : Store :=
  { emptyStore with credentials := [credX], donors := [donorRowX],
                    campaigns := [campActive], donations := [donX] }

/-- Second sample COMPLETED campaign, used to compare the two donation
handlers on the same request. -/
def campDone : Campaign :=
  { campId := "CAMP_9", cName := "Finished Drive", status := "COMPLETED",
    sDate := "2025-01-01", eDate := "2025-02-01", goalAmount := 8000,
    managerStaffId := "S_1", amountCollected := 0 }

/-- A store whose campaign table holds only campDone and whose donation
sequence stands at 41. -/
def divergeStore : Store :=
  { emptyStore with campaigns := [campDone], donationSeq := 41 }

/-- Signup request whose Aadhar number has four digits instead of twelve and
whose other fields are well formed. -/
def badAadharReq : SignupReq :=
  { aadharNo := "1234", password := "secret123", email := "ada@ngo.org",
    userType := "DONOR", fname := some "Ada", lname := none }

/-- Decidability of the budget invariant on a concrete store. -/
instance (s : Store) : Decidable (BudgetInv s) :=
  inferInstanceAs (Decidable (∀ p ∈ s.projects, p.spent ≤ p.budget))

/-- Decidability of the spent-monotonicity relation on concrete stores. -/
instance (s t : Store) : Decidable (SpentMono s t) :=
  inferInstanceAs (Decidable
    (∀ p ∈ s.projects, ∀ q ∈ t.projects, q.projId = p.projId → p.spent ≤ q.spent))

/-- Case analysis of the dispatched expense handler: either it leaves the
store untouched (rejection paths), or the amount is a positive value, the
project lookup succeeded, the budget check passed, and the store is the
pointwise SPENT update. -/
lemma patchExpense1_cases (s : Store) (pid : String) (amt : Option Int) :
    (patchExpense1 s pid amt).2 = s ∨
    ∃ a p0, amt = some a ∧ 0 < a ∧
      s.projects.find? (fun q => q.projId == pid) = some p0 ∧
      p0.spent + a ≤ p0.budget ∧
      (patchExpense1 s pid amt).2 =
        { s with projects := s.projects.map (fun q =>
            if q.projId == pid then { q with spent := p0.spent + a } else q) } := by
  cases amt with
  | none => exact Or.inl rfl
  | some a =>
    by_cases ha : a ≤ 0
    · refine Or.inl ?_
      simp [patchExpense1, ha]
    · cases hfind : s.projects.find? (fun q => q.projId == pid) with
      | none =>
        refine Or.inl ?_
        simp [patchExpense1, ha, hfind]
      | some p0 =>
        by_cases hb : p0.budget < p0.spent + a
        · refine Or.inl ?_
          simp [patchExpense1, ha, hfind, hb]
        · refine Or.inr ⟨a, p0, rfl, not_le.mp ha, rfl, not_lt.mp hb, ?_⟩
          simp only [patchExpense1, hfind]
          simp [ha, hb]

/-- The SPENT update of the expense handlers preserves the list of project
ids. -/
lemma expense_update_ids (l : List Project) (pid : String) (ns : Int) :
    (l.map (fun q => if q.projId == pid then { q with spent := ns } else q)).map
        (fun p => p.projId) =
      l.map (fun p => p.projId) := by
  rw [List.map_map]
  apply List.map_congr_left
  intro q _
  by_cases h : q.projId = pid <;> simp [h]

/-- Membership in the SPENT-updated project list, under key uniqueness: a row
of the updated list is either the updated image of the row the handler read,
or an untouched row of a different id. -/
lemma expense_update_mem {l : List Project} {pid : String} {p0 : Project} {ns : Int}
    (hnd : (l.map (fun p => p.projId)).Nodup)
    (hfind : l.find? (fun q => q.projId == pid) = some p0)
    {r : Project}
    (hr : r ∈ l.map (fun q => if q.projId == pid then { q with spent := ns } else q)) :
    r = { p0 with spent := ns } ∨ (r ∈ l ∧ r.projId ≠ pid) := by
  obtain ⟨q, hq, rfl⟩ := List.mem_map.mp hr
  have hp0mem : p0 ∈ l := List.mem_of_find?_eq_some hfind
  have hp0id : p0.projId = pid := by
    have h := List.find?_some hfind
    simpa [beq_iff_eq] using h
  by_cases h : q.projId = pid
  · left
    have hq0 : q = p0 :=
      List.inj_on_of_nodup_map hnd hq hp0mem (by rw [h, hp0id])
    subst hq0
    simp [h]
  · right
    simpa [h] using And.intro hq h

/-- One expense call preserves the id list and the budget invariant, and
never decreases the SPENT of any project, given unique project ids. -/
lemma applyExpense_step (s : Store) (c : String × Option Int)
    (hnd : (s.projects.map (fun p => p.projId)).Nodup)
    (hinv : BudgetInv s) :
    ((applyExpense s c).projects.map (fun p => p.projId) =
        s.projects.map (fun p => p.projId)) ∧
      BudgetInv (applyExpense s c) ∧ SpentMono s (applyExpense s c) := by
  rcases patchExpense1_cases s c.1 c.2 with h | ⟨a, p0, _, ha, hfind, hle, h⟩
  · have hs : applyExpense s c = s := h
    rw [hs]
    refine ⟨rfl, hinv, ?_⟩
    intro p hp q hq hid
    have hqp : q = p := List.inj_on_of_nodup_map hnd hq hp hid
    rw [hqp]
  · have hp0id : p0.projId = c.1 := by
      have hb := List.find?_some hfind
      simpa [beq_iff_eq] using hb
    have hp0mem : p0 ∈ s.projects := List.mem_of_find?_eq_some hfind
    have hs : (applyExpense s c).projects = s.projects.map (fun q =>
        if q.projId == c.1 then { q with spent := p0.spent + a } else q) := by
      show (patchExpense1 s c.1 c.2).2.projects = _
      rw [h]
    refine ⟨by rw [hs]; exact expense_update_ids _ _ _, ?_, ?_⟩
    · intro r hr
      rw [hs] at hr
      rcases expense_update_mem hnd hfind hr with hrx | ⟨hrl, _⟩
      · subst hrx
        simpa using hle
      · exact hinv r hrl
    · intro p hp r hr hid
      rw [hs] at hr
      rcases expense_update_mem hnd hfind hr with hrx | ⟨hrl, _⟩
      · subst hrx
        have hpid : p.projId = p0.projId := by
          simpa using hid.symm
        have hpp0 : p = p0 :=
          List.inj_on_of_nodup_map hnd hp hp0mem hpid
        subst hpp0
        simpa using le_of_lt (by omega)
      · have hrp : r = p := List.inj_on_of_nodup_map hnd hrl hp hid
        rw [hrp]

/-- Every intermediate state of a sequence of expense calls keeps the id
list, keeps the budget invariant and never decreases any SPENT, given unique
project ids at the start. -/
lemma runExpenses_spec (calls : List (String × Option Int)) :
    ∀ s : Store, (s.projects.map (fun p => p.projId)).Nodup → BudgetInv s →
      ((runExpenses s calls).projects.map (fun p => p.projId) =
          s.projects.map (fun p => p.projId)) ∧
        BudgetInv (runExpenses s calls) ∧ SpentMono s (runExpenses s calls) := by
  induction calls with
  | nil =>
    intro s hnd hinv
    refine ⟨rfl, hinv, ?_⟩
    intro p hp q hq hid
    have hqp : q = p := List.inj_on_of_nodup_map hnd hq hp hid
    rw [hqp]
  | cons c cs ih =>
    intro s hnd hinv
    have hstep := applyExpense_step s c hnd hinv
    have hnd1 : ((applyExpense s c).projects.map (fun p => p.projId)).Nodup := by
      rw [hstep.1]; exact hnd
    have ih1 := ih (applyExpense s c) hnd1 hstep.2.1
    have hrun : runExpenses s (c :: cs) = runExpenses (applyExpense s c) cs := rfl
    rw [hrun]
    refine ⟨by rw [ih1.1, hstep.1], ih1.2.1, ?_⟩
    intro p hp q hq hid
    have hpmem : p.projId ∈ (applyExpense s c).projects.map (fun x => x.projId) := by
      rw [hstep.1]
      exact List.mem_map_of_mem _ hp
    obtain ⟨r, hr, hrid⟩ := List.mem_map.mp hpmem
    exact le_trans (hstep.2.2 p hp r hr hrid) (ih1.2.2 r hr q hq (by rw [hid, ← hrid]))

/-- C1: starting from any store whose project table has unique PROJ_ID keys
and satisfies spent at most budget everywhere, after any sequence of calls of
the dispatched expense handler the invariant still holds, and between any
split point of the sequence and its end no SPENT value has decreased: SPENT
is monotonically non-decreasing across the sequence and never exceeds
BUDGET. -/
theorem recordExpense_budget_invariant (s : Store)
    (l1 l2 : List (String × Option Int))
    (hnd : (s.projects.map (fun p => p.projId)).Nodup)
    (hinv : BudgetInv s) :
    BudgetInv (runExpenses s (l1 ++ l2)) ∧
      SpentMono (runExpenses s l1) (runExpenses s (l1 ++ l2)) := by
  have h1 := runExpenses_spec l1 s hnd hinv
  have hnd1 : ((runExpenses s l1).projects.map (fun p => p.projId)).Nodup := by
    rw [h1.1]; exact hnd
  have h2 := runExpenses_spec l2 (runExpenses s l1) hnd1 h1.2.1
  have happ : runExpenses s (l1 ++ l2) = runExpenses (runExpenses s l1) l2 :=
    List.foldl_append _ _ _ _
  rw [happ]
  exact ⟨h2.2.1, h2.2.2⟩

/-- Witness for C1: an initial segment with one accepted expense followed by a blocked
expense, an invalid amount and an unknown project id, on the concrete sample
store. -/
theorem recordExpense_budget_invariant_witness :
    BudgetInv (runExpenses storeProjects
      ([("PROJ_1", some 60)] ++ [("PROJ_1", some 50), ("PROJ_1", none), ("PROJ_9", some 10)])) ∧
      SpentMono (runExpenses storeProjects [("PROJ_1", some 60)])
        (runExpenses storeProjects
          ([("PROJ_1", some 60)] ++ [("PROJ_1", some 50), ("PROJ_1", none), ("PROJ_9", some 10)])) :=
  recordExpense_budget_invariant storeProjects
    [("PROJ_1", some 60)] [("PROJ_1", some 50), ("PROJ_1", none), ("PROJ_9", some 10)]
    (by decide) (by decide)

/-- C3: whenever the dispatched expense handler finds the project and the
positive amount would push SPENT above BUDGET, it answers the 400 rejection
carrying the budget, the remaining headroom budget minus spent and the
attempted amount, and returns the store unchanged. -/
theorem recordExpense_budget_exceeded (s : Store) (pid : String) (a : Int) (p : Project)
    (hp : s.projects.find? (fun q => q.projId == pid) = some p)
    (ha : 0 < a) (hover : p.budget < p.spent + a) :
    patchExpense1 s pid (some a) =
      (ExpenseResp.budgetExceeded p.budget (p.budget - p.spent) a, s) := by
  simp [patchExpense1, hp, not_le.mpr ha, hover]

/-- Witness for C3: the worked example of the specification, budget 5000 and
spent 4800 with an attempted expense of 300, rejected with remaining headroom
200 and the store unchanged. -/
theorem recordExpense_budget_exceeded_witness :
    patchExpense1 storeProjects "PROJ_2" (some 300) =
      (ExpenseResp.budgetExceeded 5000 200 300, storeProjects) := by
  have h := recordExpense_budget_exceeded storeProjects "PROJ_2" 300 projB
    (by decide) (by decide) (by decide)
  exact h.trans (by decide)

/-- C4 counterexample: the claim requires the project status to transition to
COMPLETED when the new SPENT reaches BUDGET, but the dispatched expense
handler updates only SPENT.  On a project with budget 100 and spent 0, an
expense of 100 succeeds and the stored status is still ONGOING, not
COMPLETED.  (Even the unreachable second registration would have written the
mixed-case string Completed, not COMPLETED.) -/
theorem recordExpense_no_status_transition_cex :
    (patchExpense1 storeProjects "PROJ_1" (some 100)).1 = ExpenseResp.ok 100 ∧
    ∃ q ∈ (patchExpense1 storeProjects "PROJ_1" (some 100)).2.projects,
      q.projId = "PROJ_1" ∧ q.spent = 100 ∧ q.budget ≤ q.spent ∧
        q.status = "ONGOING" ∧ q.status ≠ "COMPLETED" := by decide

/-- C4 amended: when the dispatched expense handler finds the project and the
positive amount keeps SPENT within BUDGET, the call succeeds with the new
total and SPENT is updated, while the status column of every project row is
left exactly as it was: no transition to COMPLETED happens on this route. -/
theorem recordExpense_success (s : Store) (pid : String) (a : Int) (p : Project)
    (ha : 0 < a)
    (hp : s.projects.find? (fun q => q.projId == pid) = some p)
    (hle : p.spent + a ≤ p.budget) :
    patchExpense1 s pid (some a) =
      (ExpenseResp.ok (p.spent + a),
       { s with projects := s.projects.map (fun q =>
          if q.projId == pid then { q with spent := p.spent + a } else q) }) ∧
    (patchExpense1 s pid (some a)).2.projects.map (fun q => q.status) =
      s.projects.map (fun q => q.status) := by
  have h1 : patchExpense1 s pid (some a) =
      (ExpenseResp.ok (p.spent + a),
       { s with projects := s.projects.map (fun q =>
          if q.projId == pid then { q with spent := p.spent + a } else q) }) := by
    simp [patchExpense1, hp, not_le.mpr ha, not_lt.mpr hle]
  refine ⟨h1, ?_⟩
  rw [h1]
  dsimp only
  rw [List.map_map]
  apply List.map_congr_left
  intro q _
  by_cases h : q.projId = pid <;> simp [h]

/-- Witness for C4 amended: an accepted expense of 40 on the sample project,
with the status column untouched. -/
theorem recordExpense_success_witness :
    (patchExpense1 storeProjects "PROJ_1" (some 40)).1 = ExpenseResp.ok 40 ∧
    (patchExpense1 storeProjects "PROJ_1" (some 40)).2.projects.map (fun q => q.status) =
      storeProjects.projects.map (fun q => q.status) := by
  have h := recordExpense_success storeProjects "PROJ_1" 40 projA
    (by decide) (by decide) (by decide)
  refine ⟨?_, h.2⟩
  rw [h.1]
  decide

/-- C2: the dispatched donation handler is atomic over the persistent store.
Every call either leaves the store exactly as it was (all rejection paths),
or appends exactly one immutable donation row and touches nothing else: in
particular the campaign table is unchanged, because no stored raised total
exists on this path, and the raised total computed on read grows by exactly
the donated amount.  No outcome persists a donation in part. -/
theorem recordDonation_atomic (s : Store) (userType primaryId campId : String)
    (amount : Int) (clock : Nat) :
    (postDonations1 s userType primaryId campId amount clock).2 = s ∨
    (∃ c, s.campaigns.find? (fun x => x.campId == campId) = some c ∧
      c.status = "ACTIVE" ∧
      postDonations1 s userType primaryId campId amount clock =
        (DonationResp.created (generateUniqueId "D" clock),
         { s with donations := s.donations ++ [newDonation1 primaryId campId amount clock] }) ∧
      sumRaised (postDonations1 s userType primaryId campId amount clock).2.donations campId =
        sumRaised s.donations campId + amount) := by
  by_cases h1 : userType = "DONOR"
  case neg =>
    left
    simp [postDonations1, h1]
  case pos =>
    by_cases h2 : campId = "" ∨ amount ≤ 0
    · left
      simp [postDonations1, h1, h2]
    · cases hfind : s.campaigns.find? (fun c => c.campId == campId) with
      | none =>
        left
        simp [postDonations1, h1, h2, hfind]
      | some c =>
        by_cases h3 : c.status = "ACTIVE"
        case neg =>
          left
          simp [postDonations1, h1, h2, hfind, h3]
        case pos =>
          right
          refine ⟨c, rfl, h3, ?_, ?_⟩
          · simp [postDonations1, h1, h2, hfind, h3]
          · have hd : (postDonations1 s userType primaryId campId amount clock).2.donations =
                s.donations ++ [newDonation1 primaryId campId amount clock] := by
              simp [postDonations1, h1, h2, hfind, h3]
            rw [hd]
            simp [sumRaised, List.filter_append, newDonation1]

/-- C5 counterexample: the claim requires a ConflictError distinct from the
absent-campaign NotFoundError, but the dispatched donation handler answers
the identical 404 response for a campaign that exists with status COMPLETED
and for a campaign that does not exist at all; no donation row is created. -/
theorem recordDonation_inactive_not_conflict_cex :
    (postDonations1 storeInactive "DONOR" "DNR_1" "CAMP_77" 50 7).1 =
      DonationResp.campaignUnavailable ∧
    (postDonations1 emptyStore "DONOR" "DNR_1" "CAMP_77" 50 7).1 =
      DonationResp.campaignUnavailable ∧
    donationStatus DonationResp.campaignUnavailable = 404 ∧
    (postDonations1 storeInactive "DONOR" "DNR_1" "CAMP_77" 50 7).2.donations = [] := by
  decide

/-- C5 amended: a donation against a campaign that exists with a status other
than ACTIVE always fails with the single 404 response the handler shares with
the absent-campaign case (message Campaign not found or not currently
active), and creates no donation row: the store is returned unchanged. -/
theorem recordDonation_inactive_404 (s : Store) (primaryId campId : String)
    (amount : Int) (clock : Nat) (c : Campaign)
    (hfind : s.campaigns.find? (fun x => x.campId == campId) = some c)
    (hstatus : c.status ≠ "ACTIVE")
    (hcid : campId ≠ "") (hamt : 0 < amount) :
    postDonations1 s "DONOR" primaryId campId amount clock =
      (DonationResp.campaignUnavailable, s) ∧
    donationStatus DonationResp.campaignUnavailable = 404 := by
  refine ⟨?_, rfl⟩
  simp [postDonations1, hfind, hstatus, hcid, not_le.mpr hamt]

/-- Witness for C5 amended: the COMPLETED sample campaign rejects a donation
of 60 with the 404 response and an unchanged store. -/
theorem recordDonation_inactive_404_witness :
    postDonations1 storeInactive "DONOR" "DNR_1" "CAMP_77" 60 8 =
      (DonationResp.campaignUnavailable, storeInactive) ∧
    donationStatus DonationResp.campaignUnavailable = 404 :=
  recordDonation_inactive_404 storeInactive "DNR_1" "CAMP_77" 60 8 campCompleted
    (by decide) (by decide) (by decide) (by decide)

/-- C6 counterexample: the claim requires goal greater than 0 and start
before end, with violating calls rejected, but the handler only tests the
fields for JavaScript truthiness: a campaign with the negative goal -5 and an
end date before its start date is created with 201. -/
theorem createCampaign_accepts_invalid_goal_cex :
    (createCampaign emptyStore "Flood Relief" (-5) "2025-01-02" "2025-01-01" "S_1" 0).1 =
      CampaignResp.created "CAMP_0" ∧
    campaignStatus
      (createCampaign emptyStore "Flood Relief" (-5) "2025-01-02" "2025-01-01" "S_1" 0).1 =
      201 ∧
    ¬ ((0 : Int) < -5) := by decide

/-- C6 amended: createCampaign rejects only missing or falsy fields (in
particular a goal of exactly 0, which is falsy; negative goals and any date
order are accepted), assigns the id CAMP followed by the timestamp, creates
the campaign with initial status ACTIVE and a raised-on-read total of 0
(given that no donation references the fresh id), and fails with the 409
conflict on a duplicate campaign name (or an already-taken id). -/
theorem createCampaign_contract (s : Store) (cName : String) (g : Int)
    (sd ed mgr : String) (clock : Nat) :
    (cName = "" ∨ g = 0 ∨ sd = "" ∨ ed = "" →
      createCampaign s cName g sd ed mgr clock = (CampaignResp.missingFields, s)) ∧
    (cName ≠ "" → g ≠ 0 → sd ≠ "" → ed ≠ "" →
      ((∃ c ∈ s.campaigns, c.cName = cName ∨ c.campId = generateUniqueId "CAMP" clock) →
        createCampaign s cName g sd ed mgr clock = (CampaignResp.conflict, s)) ∧
      ((∀ c ∈ s.campaigns, c.cName ≠ cName ∧ c.campId ≠ generateUniqueId "CAMP" clock) →
        createCampaign s cName g sd ed mgr clock =
          (CampaignResp.created (generateUniqueId "CAMP" clock),
           { s with campaigns := s.campaigns ++ [newCampaign cName g sd ed mgr clock] }) ∧
        (newCampaign cName g sd ed mgr clock).status = "ACTIVE" ∧
        ((∀ d ∈ s.donations, d.campId ≠ generateUniqueId "CAMP" clock) →
          sumRaised (createCampaign s cName g sd ed mgr clock).2.donations
            (generateUniqueId "CAMP" clock) = 0))) := by
  constructor
  · intro h
    simp only [createCampaign, if_pos h]
  · intro h1 h2 h3 h4
    have hcond : ¬ (cName = "" ∨ g = 0 ∨ sd = "" ∨ ed = "") := by
      simp [h1, h2, h3, h4]
    constructor
    · rintro ⟨c, hc, hor⟩
      have hany : s.campaigns.any
          (fun c => c.cName == cName || c.campId == generateUniqueId "CAMP" clock) = true := by
        refine List.any_eq_true.mpr ⟨c, hc, ?_⟩
        rcases hor with h | h <;> simp [h]
      simp [createCampaign, hcond, hany]
    · intro hfresh
      have hany : s.campaigns.any
          (fun c => c.cName == cName || c.campId == generateUniqueId "CAMP" clock) = false := by
        refine List.any_eq_false.mpr ?_
        intro c hc
        simp [(hfresh c hc).1, (hfresh c hc).2]
      have hres : createCampaign s cName g sd ed mgr clock =
          (CampaignResp.created (generateUniqueId "CAMP" clock),
           { s with campaigns := s.campaigns ++ [newCampaign cName g sd ed mgr clock] }) := by
        simp [createCampaign, hcond, hany]
      refine ⟨hres, rfl, ?_⟩
      intro hnod
      rw [hres]
      dsimp only
      have hfil : s.donations.filter
          (fun d => d.campId == generateUniqueId "CAMP" clock) = [] := by
        rw [List.filter_eq_nil_iff]
        intro d hd
        simp [hnod d hd]
      simp [sumRaised, hfil]

/-- Witness for C6 amended: creating a campaign with goal 10000 on the empty
store succeeds with status ACTIVE and a raised-on-read total of 0. -/
theorem createCampaign_contract_witness :
    createCampaign emptyStore "Hope Drive" 10000 "2025-01-01" "2025-06-01" "S_1" 3 =
      (CampaignResp.created (generateUniqueId "CAMP" 3),
       { emptyStore with campaigns := emptyStore.campaigns ++
          [newCampaign "Hope Drive" 10000 "2025-01-01" "2025-06-01" "S_1" 3] }) ∧
    (newCampaign "Hope Drive" 10000 "2025-01-01" "2025-06-01" "S_1" 3).status = "ACTIVE" ∧
    sumRaised
      (createCampaign emptyStore "Hope Drive" 10000 "2025-01-01" "2025-06-01" "S_1" 3).2.donations
      (generateUniqueId "CAMP" 3) = 0 := by
  have h := (createCampaign_contract emptyStore "Hope Drive" 10000
      "2025-01-01" "2025-06-01" "S_1" 3).2
      (by decide) (by decide) (by decide) (by decide)
  have h2 := h.2 (by intro c hc; cases hc) 
  exact ⟨h2.1, h2.2.1, h2.2.2 (by intro d hd; cases hd)⟩

/-- C7: the dispatched receipt handler writes nothing on any input; it
answers 404 whenever no donation carries the requested D_ID; when the join
succeeds it answers 403 to a DONOR caller whose primary id differs from the
DONOR_ID of the row, and answers 200 with the joined view to every STAFF
caller. -/
theorem getReceipt_contract (s : Store) (donId : String) :
    (∀ userType primaryId, (getReceipt1 s donId userType primaryId).2 = s) ∧
    ((∀ d ∈ s.donations, d.dId ≠ some donId) →
      ∀ userType primaryId,
        (getReceipt1 s donId userType primaryId).1 = ReceiptResp.notFound) ∧
    (∀ d c r u, receiptJoin s donId = some (d, c, r, u) →
      (∀ primaryId, d.donorId ≠ primaryId →
        (getReceipt1 s donId "DONOR" primaryId).1 = ReceiptResp.accessDenied) ∧
      (∀ primaryId, (getReceipt1 s donId "STAFF" primaryId).1 =
        ReceiptResp.ok
          { dId := d.dId, donorId := d.donorId, amount := d.amount,
            donationDate := d.donationDate, paymentMethod := d.paymentMethod,
            campaignName := c.cName,
            donorName := r.fname.getD "" ++ " " ++ r.lname.getD "",
            donorEmail := u.email })) := by
  refine ⟨?_, ?_, ?_⟩
  · intro ut pid
    unfold getReceipt1
    cases h : receiptJoin s donId with
    | none => rfl
    | some t =>
      obtain ⟨d, c, r, u⟩ := t
      dsimp only
      by_cases hc : ut = "DONOR" ∧ d.donorId ≠ pid
      · rw [if_pos hc]
      · rw [if_neg hc]
  · intro hnone ut pid
    have hfind : s.donations.find? (fun d => d.dId == some donId) = none := by
      rw [List.find?_eq_none]
      intro d hd
      simpa [beq_iff_eq] using hnone d hd
    have hj : receiptJoin s donId = none := by
      unfold receiptJoin
      rw [hfind]
    simp [getReceipt1, hj]
  · intro d c r u hj
    constructor
    · intro pid hne
      simp [getReceipt1, hj, hne]
    · intro pid
      simp [getReceipt1, hj]

/-- Witness for C7: on the sample receipt store, the foreign donor DNR_2 is
refused, STAFF reads the full denormalized view, an unknown id answers 404,
and the store is returned unchanged. -/
theorem getReceipt_contract_witness :
    (getReceipt1 receiptStore "D_9" "DONOR" "DNR_2").1 = ReceiptResp.accessDenied ∧
    (getReceipt1 receiptStore "D_9" "STAFF" "S_1").1 =
      ReceiptResp.ok
        { dId := some "D_9", donorId := "DNR_1", amount := 25,
          donationDate := some 4, paymentMethod := some "ONLINE",
          campaignName := "Hope Drive", donorName := "Ada Lovelace",
          donorEmail := "ada@ngo.org" } ∧
    (getReceipt1 receiptStore "NOPE" "STAFF" "S_1").1 = ReceiptResp.notFound ∧
    (getReceipt1 receiptStore "D_9" "STAFF" "S_1").2 = receiptStore := by
  have h := getReceipt_contract receiptStore "D_9"
  have h9 := h.2.2 donX campActive donorRowX credX (by decide)
  refine ⟨h9.1 "DNR_2" (by decide), ?_, ?_, h.1 "STAFF" "S_1"⟩
  · rw [h9.2 "S_1"]
    decide
  · exact (getReceipt_contract receiptStore "NOPE").2.1 (by decide) "STAFF" "S_1"

/-- C8: code bug.  A project with BUDGET 0 is creatable (the handler tests
the raw request field for truthiness, so the string form of zero passes its
presence check), and on any store containing such a project the progress
query itself raises the Oracle division-by-zero error, which the route
answers as 500.  The JavaScript guard that was written to return a
spending percent of 0 for a zero budget sits after the query and can never
see such a row, contradicting the claim (and the stated intent of the
handler) that a zero budget yields spending_percent 0. -/
theorem progress_zero_budget_db_error :
    (createProject emptyStore "Borehole" 0 true "2025-01-01" none "S_1" 5).1 =
      ProjectResp.created "PROJ_5" ∧
    (progressHandler (createProject emptyStore "Borehole" 0 true "2025-01-01" none "S_1" 5).2).1 =
      ProgressResp.dbError ∧
    progressStatus
      (progressHandler
        (createProject emptyStore "Borehole" 0 true "2025-01-01" none "S_1" 5).2).1 = 500 := by
  decide

/-- C9: the two registrations of POST /api/donations and the two
registrations of GET /api/donations/:donId are not equivalent
implementations of one contract.  On the same donation request against an
existing COMPLETED campaign, the first handler answers 404 and writes
nothing, while the second answers 201, appends a donation row under its
other key column and adds the amount to the stored AMOUNT_COLLECTED total.
On the same receipt request the first handler answers 200 with the joined
view, while the second answers 500 (its SQL text is invalid; and its filter
keys on DONOR_ID rather than D_ID). -/
theorem duplicate_route_handlers_diverge :
    ((postDonations1 divergeStore "DONOR" "DNR_1" "CAMP_9" 50 7).1 =
        DonationResp.campaignUnavailable ∧
      donationStatus (postDonations1 divergeStore "DONOR" "DNR_1" "CAMP_9" 50 7).1 = 404 ∧
      (postDonations1 divergeStore "DONOR" "DNR_1" "CAMP_9" 50 7).2 = divergeStore) ∧
    ((postDonations2 divergeStore "DONOR" "DNR_1" "CAMP_9" 50 "2025-10-12").1 =
        DonationResp2.created 41 ∧
      donation2Status
        (postDonations2 divergeStore "DONOR" "DNR_1" "CAMP_9" 50 "2025-10-12").1 = 201 ∧
      (postDonations2 divergeStore "DONOR" "DNR_1" "CAMP_9" 50 "2025-10-12").2.donations.length =
        divergeStore.donations.length + 1 ∧
      (postDonations2 divergeStore "DONOR" "DNR_1" "CAMP_9" 50 "2025-10-12").2.campaigns.map
        (fun c => c.amountCollected) = [50]) ∧
    (receiptStatus (getReceipt1 receiptStore "D_9" "STAFF" "S_1").1 = 200 ∧
      receipt2Status (getReceipt2 receiptStore "D_9" "STAFF" "S_1").1 = 500) := by
  decide

/-- C10: every signup request whose Aadhar number is not exactly twelve
digits, whose email does not match the nonspace at nonspace dot nonspace
pattern, or whose password is shorter than six characters is rejected with a
400 validation response before any database write: the store is returned
unchanged, and the rejection is one whose message names a field that really
is offending in the request. -/
theorem signup_validation_rejects (s : Store) (r : SignupReq) (clock : Nat)
    (h : is12Digits r.aadharNo = false ∨ emailOk r.email = false ∨ r.password.length < 6) :
    signupStatus (signup s r clock).1 = 400 ∧ (signup s r clock).2 = s ∧
    namesOffending (signup s r clock).1 r = true := by
  by_cases hm : (r.email == "" || r.password == "" || r.aadharNo == "" || r.userType == "") = true
  · simp [signup, hm, signupStatus, namesOffending]
  · by_cases hu : (!(upper r.userType == "STAFF") && !(upper r.userType == "DONOR")) = true
    · simp [signup, hm, hu, signupStatus, namesOffending]
    · cases ha : is12Digits r.aadharNo with
      | false => simp [signup, hm, hu, ha, signupStatus, namesOffending]
      | true =>
        cases he : emailOk r.email with
        | false => simp [signup, hm, hu, ha, he, signupStatus, namesOffending]
        | true =>
          by_cases hp : r.password.length < 6
          · simp [signup, hm, hu, ha, he, hp, signupStatus, namesOffending]
          · rcases h with h | h | h
            · simp [ha] at h
            · simp [he] at h
            · exact absurd h hp

/-- Witness for C10: a request with a four-digit Aadhar number on the empty
store is rejected with 400, the store is unchanged and the message names the
Aadhar field. -/
theorem signup_validation_rejects_witness :
    signupStatus (signup emptyStore badAadharReq 9).1 = 400 ∧
    (signup emptyStore badAadharReq 9).2 = emptyStore ∧
    namesOffending (signup emptyStore badAadharReq 9).1 badAadharReq = true :=
  signup_validation_rejects emptyStore badAadharReq 9 (Or.inl (by decide))
